import Mathlib

/-!
Verification of the manggo-admin image-hierarchy core: a shallow embedding of
the classification, folder-building, filter/sort, selection and bulk-action
code of the admin frontend, with theorems settling the specified properties.

Conventions of the embedding:
- JS numbers carrying confidence scores become rationals; timestamps become
  integers (epoch milliseconds), so `new Date(x) >= cutoffDate` becomes an
  integer comparison against a cutoff parameter.
- JS strings become `String`; a missing or empty string field is the empty
  string (both are falsy in the source).
- `Array.prototype.sort`, which is guaranteed stable, is modelled by the
  stable `List.insertionSort`; the comparator `c` becomes the relation
  `fun a b => c a b <= 0`.
- `localeCompare` is kept abstract as a comparator parameter `lc`; concrete
  computations instantiate it with the codepoint comparator `stdLC`, which
  agrees with it on the ASCII names that occur.
-/

/-! ## JS string primitives -/

/-- Leading-segment test on character lists: the first list is a prefix of the second. -/
def leadMatch : List Char → List Char → Bool
  | [], _ => true
  | _ :: _, [] => false
  | p :: ps, h :: hs => p == h && leadMatch ps hs

/-- Substring test on character lists, scanning left to right. -/
def charsInclude (hay pat : List Char) : Bool :=
  match hay with
  | [] => pat.isEmpty
  | _ :: rest => leadMatch pat hay || charsInclude rest pat

/-- Model of `String.prototype.includes`. -/
def strIncludes (hay pat : String) : Bool := charsInclude hay.data pat.data

/-- Model of `String.prototype.toLowerCase` (ASCII-adequate). -/
def strLower (s : String) : String := String.mk (s.data.map Char.toLower)

/-- Model of `charAt(0).toUpperCase() + slice(1)`. -/
def capitalizeStr (s : String) : String :=
  match s.data with
  | [] => s
  | c :: rest => String.mk (c.toUpper :: rest)

/-- A concrete model of `localeCompare`, by codepoint order; it agrees with the
locale order on the ASCII disease names appearing in the data. -/
def stdLC (a b : String) : Int :=
  match compare a b with
  | Ordering.lt => -1
  | Ordering.eq => 0
  | Ordering.gt => 1

/-- JS `string || fallback`: the empty string is falsy. -/
def jsOr (s fallback : String) : String := if s ≠ "" then s else fallback

/-- The value of a JS expression used in boolean position; only the two cases
arising in the embedded code are needed. -/
inductive JSValue where
  | undefinedV : JSValue
  | boolV : Bool → JSValue
deriving DecidableEq, Repr

/-- JS truthiness of the modelled values: `undefined` is falsy. -/
def JSValue.truthy : JSValue → Bool
  | JSValue.undefinedV => false
  | JSValue.boolV b => b

/-! ## Data model (`images.interfaces.ts`, `mango-disease.service.ts`) -/

/-- The `'leaf' | 'fruit' | 'unknown'` union used for disease types. -/
inductive DiseaseType where
  | leaf : DiseaseType
  | fruit : DiseaseType
  | unknown : DiseaseType
deriving DecidableEq, Repr

/-- String form of a `DiseaseType`, as the TS union values. -/
def diseaseTypeStr : DiseaseType → String
  | DiseaseType.leaf => "leaf"
  | DiseaseType.fruit => "fruit"
  | DiseaseType.unknown => "unknown"

/-- The four top-level categories: `'all' | 'verified' | 'unverified' | 'unknown'`. -/
inductive MainCat where
  | all : MainCat
  | verified : MainCat
  | unverified : MainCat
  | unknown : MainCat
deriving DecidableEq, Repr

/-- The `'all' | 'leaf' | 'fruit'` filter union. -/
inductive FilterType where
  | all : FilterType
  | leaf : FilterType
  | fruit : FilterType
deriving DecidableEq, Repr

/-- The `'disease' | 'count' | 'date'` sort key union. -/
inductive SortBy where
  | disease : SortBy
  | count : SortBy
  | date : SortBy
deriving DecidableEq, Repr

/-- The `'all' | 'week' | 'month' | 'year'` date-range union. -/
inductive DateRange where
  | all : DateRange
  | week : DateRange
  | month : DateRange
  | year : DateRange
deriving DecidableEq, Repr

/-- An image record as consumed by the admin components (`MangoImage`).
Optional numeric and union fields are `Option`; optional string fields are
strings with `""` for absent, matching JS falsiness. `uploaded_at` is the
epoch-millisecond value of the upload timestamp. -/
structure MangoImage where
  id : Nat
  predicted_class : String
  disease_classification : String
  confidence_score : Option ℚ
  is_verified : Bool
  uploaded_at : Int
  disease_type : Option DiseaseType
  model_used : Option DiseaseType
  original_filename : String
deriving DecidableEq, Repr

/-- A disease folder (`VerifiedDiseaseFolder`). -/
structure VerifiedDiseaseFolder where
  disease : String
  count : Nat
  images : List MangoImage
  expanded : Bool
  diseaseType : DiseaseType
  downloading : Bool
  verificationStatus : Option MainCat
deriving DecidableEq, Repr

/-- A top-level folder (`MainFolder`). -/
structure MainFolder where
  name : String
  count : Nat
  expanded : Bool
  subFolders : List VerifiedDiseaseFolder
  originalSubFolders : List VerifiedDiseaseFolder
  type : MainCat
deriving DecidableEq, Repr

/-! ## Classification engine -/

/-- `VerifiedImagesComponent.getConfidenceScore`: a falsy `confidence_score`
(absent, null or 0) yields 0; a truthy score at most 1 is scaled to a
percentage; anything else is returned as is. -/
def getConfidenceScore (image : MangoImage) : ℚ :=
  match image.confidence_score with
  | some s => if s ≠ 0 then (if s ≤ 1 then s * 100 else s) else 0
  | none => 0

/-- The numeric body of `getConfidenceScore`, as a function of the score. -/
def normalizeScore (s : ℚ) : ℚ :=
  if s ≠ 0 then (if s ≤ 1 then s * 100 else s) else 0

/-- `UnverifiedImagesComponent.getDiseaseType`, leaf-keyword list, in source order. -/
def leafDiseases : List String :=
  ["anthracnose", "powdery mildew", "sooty mould", "die back",
   "bacterial canker", "gall midge", "cutting weevil", "alternaria",
   "leaf spot", "blight", "leaf", "mildew", "canker", "wilt"]

/-- `UnverifiedImagesComponent.getDiseaseType`, fruit-keyword list, in source order. -/
def fruitDiseases : List String :=
  ["black mould rot", "stem end rot", "fruit rot", "fruit",
   "rot", "mold", "mould", "decay"]

/-- The keyword-fallback tail of `UnverifiedImagesComponent.getDiseaseType`:
the guarded block over `disease_classification || predicted_class`, the two
keyword loops (each loop returns one fixed value on its first hit, hence
`List.any`), the `healthy` special case, and the default. -/
def keywordFallback (image : MangoImage) : DiseaseType :=
  if image.disease_classification ≠ "" ∨ image.predicted_class ≠ "" then
    let diseaseName := strLower (jsOr image.disease_classification image.predicted_class)
    if leafDiseases.any (fun pat => strIncludes diseaseName pat) then DiseaseType.leaf
    else if fruitDiseases.any (fun pat => strIncludes diseaseName pat) then DiseaseType.fruit
    else if strIncludes diseaseName "healthy" then DiseaseType.leaf
    else DiseaseType.unknown
  else DiseaseType.unknown

/-- `UnverifiedImagesComponent.getDiseaseType`: `model_used` first, then a
`disease_type` other than `unknown`, then the keyword fallback. -/
def unverifiedGetDiseaseType (image : MangoImage) : DiseaseType :=
  match image.model_used with
  | some m => m
  | none =>
    match image.disease_type with
    | some dt => if dt ≠ DiseaseType.unknown then dt else keywordFallback image
    | none => keywordFallback image

/-- `VerifiedImagesComponent.getDiseaseType`: a `disease_type` other than
`unknown` first, then `model_used`, else `unknown`; it has no keyword fallback. -/
def getDiseaseType (image : MangoImage) : DiseaseType :=
  match image.disease_type with
  | some dt =>
    if dt ≠ DiseaseType.unknown then dt
    else
      match image.model_used with
      | some m => m
      | none => DiseaseType.unknown
  | none =>
    match image.model_used with
    | some m => m
    | none => DiseaseType.unknown

/-- Modelled from the spec (section 4.1) for comparison with the source: the
leaf-keyword list as the spec words it, with the spelling variants and without
`alternaria`. -/
def specLeafKeywords : List String :=
  ["anthracnose", "powdery mildew", "sooty mould", "sooty mold", "die back",
   "dieback", "bacterial canker", "gall midge", "cutting weevil",
   "leaf spot", "blight", "canker", "wilt", "mildew", "leaf"]

/-- Modelled from the spec (section 4.1) for comparison with the source: the
fruit-keyword list as the spec words it, with `alternaria` as a fruit keyword. -/
def specFruitKeywords : List String :=
  ["black mould rot", "black mold rot", "stem end rot", "alternaria",
   "fruit rot", "rot", "mold", "mould", "decay", "fruit"]

/-- Modelled from the spec (section 4.1) for comparison with the source: the
type-inference chain exactly as the claim states it — model-assigned type
verbatim first, then a backend `disease_type` other than `unknown`, then the
spec keyword lists (leaf checked before fruit, `alternaria` a fruit keyword),
then the `healthy` default to leaf, else `unknown`. -/
def specGetDiseaseType (image : MangoImage) : DiseaseType :=
  match image.model_used with
  | some m => m
  | none =>
    match image.disease_type with
    | some dt =>
      if dt ≠ DiseaseType.unknown then dt else specKeywordFallback image
    | none => specKeywordFallback image
where
  specKeywordFallback (image : MangoImage) : DiseaseType :=
    let diseaseName := strLower (jsOr image.disease_classification image.predicted_class)
    if specLeafKeywords.any (fun pat => strIncludes diseaseName pat) then DiseaseType.leaf
    else if specFruitKeywords.any (fun pat => strIncludes diseaseName pat) then DiseaseType.fruit
    else if strIncludes diseaseName "healthy" then DiseaseType.leaf
    else DiseaseType.unknown

/-! ## Category routing (`loadAllImages`, steps 6-8) -/

/-- The confidence threshold below which an image is routed to the unknown
category (`UNKNOWN_CONFIDENCE_THRESHOLD`). -/
def UNKNOWN_CONFIDENCE_THRESHOLD : ℚ := 50

/-- The branch structure of the categorisation loop of `loadAllImages`:
low confidence wins over the verification flag. -/
def categorizeImage (image : MangoImage) : MainCat :=
  if getConfidenceScore image < UNKNOWN_CONFIDENCE_THRESHOLD then MainCat.unknown
  else if image.is_verified then MainCat.verified
  else MainCat.unverified

/-- The images pushed onto `unknownImages` by the loop of `loadAllImages`
(the loop pushes in traversal order, so it is a filter). -/
def unknownImagesOf (images : List MangoImage) : List MangoImage :=
  images.filter (fun image => decide (getConfidenceScore image < UNKNOWN_CONFIDENCE_THRESHOLD))

/-- The images pushed onto `verifiedImages` by the loop of `loadAllImages`. -/
def verifiedImagesOf (images : List MangoImage) : List MangoImage :=
  images.filter (fun image =>
    if getConfidenceScore image < UNKNOWN_CONFIDENCE_THRESHOLD then false
    else image.is_verified)

/-- The images pushed onto `unverifiedImages` by the loop of `loadAllImages`. -/
def unverifiedImagesOf (images : List MangoImage) : List MangoImage :=
  images.filter (fun image =>
    if getConfidenceScore image < UNKNOWN_CONFIDENCE_THRESHOLD then false
    else !image.is_verified)

/-! ## Folder hierarchy builder (`groupImagesByDisease`, `createMainFolders`) -/

/-- Insertion into the `diseaseMap`: JS `Map` keeps first-insertion key order
and `push` appends to the value list. -/
def insertGrouped (key : String) (image : MangoImage) :
    List (String × List MangoImage) → List (String × List MangoImage)
  | [] => [(key, [image])]
  | (k, imgs) :: rest =>
    if k = key then (k, imgs ++ [image]) :: rest
    else (k, imgs) :: insertGrouped key image rest

/-- The grouping loop: fold the images through the map in traversal order. -/
def groupPairs (keyOf : MangoImage → String) (images : List MangoImage) :
    List (String × List MangoImage) :=
  images.foldl (fun acc image => insertGrouped (keyOf image) image acc) []

/-- The composite grouping key of `groupImagesByDisease`:
`` `${disease}_${diseaseType}` `` with the `Unknown` label fallback. -/
def folderKeyOf (image : MangoImage) : String :=
  let disease := jsOr image.predicted_class "Unknown"
  let dts := diseaseTypeStr (getDiseaseType image)
  s!"{disease}_{dts}"

/-- The display name of a disease folder: the label with the capitalized type
appended in parentheses when the type is not `unknown`. -/
def displayNameOf (image : MangoImage) : String :=
  let disease := jsOr image.predicted_class "Unknown"
  let diseaseType := getDiseaseType image
  if diseaseType ≠ DiseaseType.unknown then
    let cap := capitalizeStr (diseaseTypeStr diseaseType)
    s!"{disease} ({cap})"
  else disease

/-- Comparator relation of `imgs.sort((a, b) => dateB - dateA)`: image `a`
stays before `b` when `b.uploaded_at - a.uploaded_at <= 0`. -/
def imageDateRel (a b : MangoImage) : Prop := b.uploaded_at - a.uploaded_at ≤ 0

instance : DecidableRel imageDateRel := fun _ _ => Int.decLe _ _

/-- Head upload time used by the `date` sort: `images[0]?.uploaded_at || ''`;
folders reaching the sorts are built nonempty, the empty default stands for
the out-of-range `new Date('')`. -/
def headUploadTime (folder : VerifiedDiseaseFolder) : Int :=
  match folder.images with
  | image :: _ => image.uploaded_at
  | [] => 0

/-- Comparator relation of the folder sort switch for a given sort key
(`sortFolders` and the trailing sort of `groupImagesByDisease` use the same
comparators as `FilterService.applySorting`). -/
def folderRel (lc : String → String → Int) : SortBy → VerifiedDiseaseFolder → VerifiedDiseaseFolder → Prop
  | SortBy.disease => fun a b => lc a.disease b.disease ≤ 0
  | SortBy.count => fun a b => (b.count : Int) - (a.count : Int) ≤ 0
  | SortBy.date => fun a b => headUploadTime b - headUploadTime a ≤ 0

instance (lc : String → String → Int) (sortBy : SortBy) : DecidableRel (folderRel lc sortBy) :=
  match sortBy with
  | SortBy.disease => fun _ _ => Int.decLe _ _
  | SortBy.count => fun _ _ => Int.decLe _ _
  | SortBy.date => fun _ _ => Int.decLe _ _

/-- Fallback image for the (unreachable) empty-group case of the folder map;
groups produced by `groupPairs` are never empty. -/
def defaultImage : MangoImage :=
  { id := 0, predicted_class := "", disease_classification := "",
    confidence_score := none, is_verified := false, uploaded_at := 0,
    disease_type := none, model_used := none, original_filename := "" }

/-- `VerifiedImagesComponent.groupImagesByDisease`: optional date pre-filter
(`uploadedAt >= cutoff`, correctly returned here, unlike the filter service),
grouping by the composite key, folder construction with `count = imgs.length`
and date-descending images, and the trailing sort by the current sort key. -/
def groupImagesByDisease (lc : String → String → Int) (cutoff : Int)
    (dateRange : DateRange) (sortBy : SortBy)
    (images : List MangoImage) (verificationStatus : MainCat) :
    List VerifiedDiseaseFolder :=
  let filteredImages :=
    if dateRange ≠ DateRange.all then
      images.filter (fun img => decide (cutoff ≤ img.uploaded_at))
    else images
  let pairs := groupPairs folderKeyOf filteredImages
  let folders := pairs.map (fun pair =>
    let first := pair.2.headD defaultImage
    { disease := displayNameOf first,
      count := pair.2.length,
      images := pair.2.insertionSort imageDateRel,
      expanded := false,
      diseaseType := getDiseaseType first,
      downloading := false,
      verificationStatus := some verificationStatus })
  folders.insertionSort (folderRel lc sortBy)

/-- `VerifiedImagesComponent.createMainFolders`: the four fixed main folders,
counts taken from the category list lengths, `subFolders` a copy of the grouped
list and `originalSubFolders` the grouped list itself. -/
def createMainFolders (lc : String → String → Int) (cutoff : Int)
    (dateRange : DateRange) (sortBy : SortBy)
    (allImages verifiedImages unverifiedImages unknownImages : List MangoImage) :
    List MainFolder :=
  let allSubFolders := groupImagesByDisease lc cutoff dateRange sortBy allImages MainCat.all
  let verifiedSubFolders := groupImagesByDisease lc cutoff dateRange sortBy verifiedImages MainCat.verified
  let unverifiedSubFolders := groupImagesByDisease lc cutoff dateRange sortBy unverifiedImages MainCat.unverified
  let unknownSubFolders := groupImagesByDisease lc cutoff dateRange sortBy unknownImages MainCat.unknown
  [ { name := "All Images", count := allImages.length, expanded := false,
      type := MainCat.all, subFolders := allSubFolders, originalSubFolders := allSubFolders },
    { name := "Verified Images", count := verifiedImages.length, expanded := false,
      type := MainCat.verified, subFolders := verifiedSubFolders, originalSubFolders := verifiedSubFolders },
    { name := "Unverified Images", count := unverifiedImages.length, expanded := false,
      type := MainCat.unverified, subFolders := unverifiedSubFolders, originalSubFolders := unverifiedSubFolders },
    { name := "Unknown Images", count := unknownImages.length, expanded := false,
      type := MainCat.unknown, subFolders := unknownSubFolders, originalSubFolders := unknownSubFolders } ]

/-- The rebuild of `loadAllImages`: categorize every fetched image, then build
the main folders from the four category lists. -/
def loadAllImagesBuild (lc : String → String → Int) (cutoff : Int)
    (dateRange : DateRange) (sortBy : SortBy) (allImages : List MangoImage) :
    List MainFolder :=
  createMainFolders lc cutoff dateRange sortBy allImages
    (verifiedImagesOf allImages) (unverifiedImagesOf allImages) (unknownImagesOf allImages)

/-! ## Filter service (`Filter.service.ts`) -/

/-- The image callback of `FilterService.applyDateFilter`: its arrow body is a
braced statement with no `return`, so the comparison `new Date(...) >= cutoff`
is computed and discarded and the callback evaluates to `undefined`. -/
def dateFilterCallback (cutoff : Int) (images : MangoImage) : JSValue :=
  let _cmp := decide (cutoff ≤ images.uploaded_at)
  JSValue.undefinedV

/-- `FilterService.applyDateFilter`: rebuild every folder from the images kept
by the callback, recompute `count`, then drop folders left with no image. -/
def applyDateFilter (cutoff : Int) (folders : List VerifiedDiseaseFolder)
    (dateRange : DateRange) : List VerifiedDiseaseFolder :=
  if dateRange = DateRange.all then folders
  else
    (folders.map (fun folder =>
      let filteredImages := folder.images.filter (fun images => (dateFilterCallback cutoff images).truthy)
      { folder with images := filteredImages, count := filteredImages.length })).filter
      (fun folder => decide (folder.images.length > 0))

/-- The `folder.diseaseType === filterType` comparison of the type filter. -/
def ftMatches (dt : DiseaseType) : FilterType → Bool
  | FilterType.leaf => dt = DiseaseType.leaf
  | FilterType.fruit => dt = DiseaseType.fruit
  | FilterType.all => false

/-- `FilterService.filterSubFolders`: optional type filter, optional
case-insensitive search filter, optional date filter. -/
def filterSubFolders (cutoff : Int) (subFolders : List VerifiedDiseaseFolder)
    (filterType : FilterType) (searchTerm : String) (dateRange : DateRange) :
    List VerifiedDiseaseFolder :=
  let filtered := subFolders
  let filtered :=
    if filterType ≠ FilterType.all then
      filtered.filter (fun folder => ftMatches folder.diseaseType filterType)
    else filtered
  let filtered :=
    if searchTerm ≠ "" then
      let term := strLower searchTerm
      filtered.filter (fun folder => strIncludes (strLower folder.disease) term)
    else filtered
  if dateRange ≠ DateRange.all then applyDateFilter cutoff filtered dateRange
  else filtered

/-- `FilterService.applySorting`: copy the array, then stable-sort it by the
comparator of the chosen sort key. -/
def applySorting (lc : String → String → Int) (folders : List VerifiedDiseaseFolder)
    (sortBy : SortBy) : List VerifiedDiseaseFolder :=
  folders.insertionSort (folderRel lc sortBy)

/-- Accumulation of `totalImages` over the sorted subfolders, as the loop of
`FilterService.filterMainFolders` computes it. -/
def sumCounts (folders : List VerifiedDiseaseFolder) : Nat :=
  folders.foldl (fun acc folder => acc + folder.count) 0

/-- `FilterService.filterMainFolders`: for every main folder, filter and sort
its `originalSubFolders`, then overwrite `count` with the subfolder total and
`subFolders` with the new view. -/
def filterMainFolders (lc : String → String → Int) (cutoff : Int)
    (mainFolders : List MainFolder) (filterType : FilterType)
    (searchTerm : String) (sortBy : SortBy) (dateRange : DateRange) :
    List MainFolder :=
  if mainFolders.length = 0 then []
  else
    mainFolders.map (fun mainFolder =>
      let filteredSubFolders :=
        filterSubFolders cutoff mainFolder.originalSubFolders filterType searchTerm dateRange
      let sortedSubFolders := applySorting lc filteredSubFolders sortBy
      let totalImages := sumCounts sortedSubFolders
      { mainFolder with count := totalImages, subFolders := sortedSubFolders })

/-! ## Selection set (`buttons.service.ts`, component selection methods)

A JS `Set<number>` is insertion-ordered and duplicate-free; it is modelled as
a `List Nat` with `add` appending an absent element and `delete` removing one.
To make aliasing and in-place mutation observable, set objects live in a store
of cells addressed by allocation index; `new Set()` allocates a fresh cell. -/

/-- `Set.prototype.add`. -/
def setAdd (s : List Nat) (x : Nat) : List Nat :=
  if x ∈ s then s else s ++ [x]

/-- `Set.prototype.delete`. -/
def setDelete (s : List Nat) (x : Nat) : List Nat :=
  s.filter (fun y => y ≠ x)

/-- The store of live `Set<number>` objects: cell `r` holds the contents of
the set allocated `r`-th. -/
abbrev SelStore := List (List Nat)

/-- Contents of the set object at reference `r`. -/
def SelStore.read (σ : SelStore) (r : Nat) : List Nat := σ.getD r []

/-- In-place update of the set object at reference `r`. -/
def SelStore.write (σ : SelStore) (r : Nat) (v : List Nat) : SelStore := σ.set r v

/-- Allocation of a fresh set object; returns the new store and the reference. -/
def SelStore.alloc (σ : SelStore) (v : List Nat) : SelStore × Nat :=
  (σ ++ [v], σ.length)

/-- `ButtonsService.toggleImageSelection`: copy the current selection into a
fresh set element by element, then delete or add `imageId` depending on the
membership scan, and return the fresh set. -/
def toggleImageSelection (imageId : Nat) (rSel : Nat) (σ : SelStore) : SelStore × Nat :=
  let existingIds := σ.read rSel
  let copied := existingIds.foldl setAdd []
  let isAlreadySelected := decide (imageId ∈ copied)
  let newSelection := if isAlreadySelected then setDelete copied imageId else setAdd copied imageId
  σ.alloc newSelection

/-- `ButtonsService.selectAllInFolder`: copy the current selection into a
fresh set, then add every image id of the folder. -/
def selectAllInFolder (folder : VerifiedDiseaseFolder) (rSel : Nat) (σ : SelStore) :
    SelStore × Nat :=
  let existingIds := σ.read rSel
  let copied := existingIds.foldl setAdd []
  let newSelection := folder.images.foldl (fun acc image => setAdd acc image.id) copied
  σ.alloc newSelection

/-- `ButtonsService.selectAllImages`: a fresh set holding every image id of
every subfolder of every main folder. -/
def selectAllImages (mainFolders : List MainFolder) (σ : SelStore) : SelStore × Nat :=
  let allSelected :=
    mainFolders.foldl (fun acc mainFolder =>
      mainFolder.subFolders.foldl (fun acc subFolder =>
        subFolder.images.foldl (fun acc image => setAdd acc image.id) acc) acc) []
  σ.alloc allSelected

/-- `ButtonsService.deselectAllImages`: a fresh empty set. -/
def deselectAllImages (σ : SelStore) : SelStore × Nat :=
  σ.alloc []

/-- `VerifiedImagesComponent.deselectAllInFolder`: deletes every image id of
the folder from the existing selection set in place; it returns nothing. -/
def deselectAllInFolder (folder : VerifiedDiseaseFolder) (rSel : Nat) (σ : SelStore) : SelStore :=
  folder.images.foldl (fun σ image => σ.write rSel (setDelete (σ.read rSel) image.id)) σ

/-- `ButtonsService.isAllInFolderSelected`: false for an empty folder, else
every image id of the folder must be in the selection. -/
def isAllInFolderSelected (folder : VerifiedDiseaseFolder) (currentSelection : List Nat) : Bool :=
  if folder.images.length = 0 then false
  else folder.images.all (fun image => decide (image.id ∈ currentSelection))

/-! ## Bulk actions (`buttons.service.ts`) -/

/-- A backend mutation request issued by the buttons service. -/
inductive Request where
  | bulkUpdate : List Nat → Bool → Request
  | deleteImage : Nat → Request
deriving DecidableEq, Repr

/-- The `{success, message}` result of a bulk action. -/
structure ActionResult where
  success : Bool
  message : String
deriving DecidableEq, Repr

/-- `ButtonsService.verifySelectedImages`: empty-input rejection, then one
batched `bulkUpdateImages(ids, {is_verified: true})` request whose outcome is
the oracle `bulkOk`; returns the result together with the issued requests. -/
def verifySelectedImages (bulkOk : Bool) (selectedIds : List Nat) :
    ActionResult × List Request :=
  if selectedIds.length = 0 then
    ({ success := false, message := "No images selected. Select an Image to verify." }, [])
  else
    let n := selectedIds.length
    if bulkOk then
      ({ success := true, message := s!"Successfully verified {n} images" },
       [Request.bulkUpdate selectedIds true])
    else
      ({ success := false, message := "Failed to verify images. Please try again." },
       [Request.bulkUpdate selectedIds true])

/-- `ButtonsService.unverifySelectedImages`: the same batched shape with
`is_verified: false`. -/
def unverifySelectedImages (bulkOk : Bool) (selectedIds : List Nat) :
    ActionResult × List Request :=
  if selectedIds.length = 0 then
    ({ success := false, message := "No images selected. Please select images to unverify." }, [])
  else
    let n := selectedIds.length
    if bulkOk then
      ({ success := true, message := s!"Successfully unverified {n} images" },
       [Request.bulkUpdate selectedIds false])
    else
      ({ success := false, message := "Failed to unverify images. Please try again." },
       [Request.bulkUpdate selectedIds false])

/-- The per-id loop of `ButtonsService.deleteSelectedImages`: one delete
request per id in order, counting successes and failures by the per-id oracle
`ok`; an individual failure is caught and counted, never aborting the loop. -/
def deleteLoop (ok : Nat → Bool) : List Nat → Nat × Nat × List Request
  | [] => (0, 0, [])
  | imageId :: rest =>
    let r := deleteLoop ok rest
    if ok imageId then (r.1 + 1, r.2.1, Request.deleteImage imageId :: r.2.2)
    else (r.1, r.2.1 + 1, Request.deleteImage imageId :: r.2.2)

/-- `ButtonsService.deleteSelectedImages`: empty-input rejection, the per-id
loop, then the three-way message on the accumulated counts. -/
def deleteSelectedImages (ok : Nat → Bool) (selectedIds : List Nat) :
    ActionResult × List Request :=
  if selectedIds.length = 0 then
    ({ success := false, message := "No images selected. Select an Image to delete." }, [])
  else
    let r := deleteLoop ok selectedIds
    let successCount := r.1
    let failCount := r.2.1
    if successCount > 0 ∧ failCount = 0 then
      ({ success := true, message := s!"Successfully deleted {successCount} images" }, r.2.2)
    else if successCount > 0 ∧ failCount > 0 then
      ({ success := true,
         message := s!"Deleted {successCount} images, but failed to delete {failCount} images" }, r.2.2)
    else
      ({ success := false, message := s!"Failed to delete all {failCount} images." }, r.2.2)

/-! ## Component entry points: observable effects (`verified-images.component.ts`)

Each entry point is modelled as the sequence of user-facing and network
effects it performs, with oracles for the confirmation dialogs and the
backend outcomes. -/

/-- An observable effect of a component entry point. -/
inductive Effect where
  | alert : String → Effect
  | confirmAsk : String → Effect
  | request : Request → Effect
  | fetchImage : Nat → Effect
  | reload : Effect
  | save : String → Effect
deriving DecidableEq, Repr

/-- `VerifiedImagesComponent.verifySelectedImages`: empty-selection alert,
confirmation, the service call, the result alert, and on success the
selection reset and full reload. -/
def verifyEntryEffects (confirmAnswer bulkOk : Bool) (selectedImages : List Nat) :
    List Effect :=
  if selectedImages.length = 0 then [Effect.alert "Please select images to verify"]
  else
    let n := selectedImages.length
    let confirmMessage := s!"Are you sure you want to verify {n} images?"
    if !confirmAnswer then [Effect.confirmAsk confirmMessage]
    else
      let r := verifySelectedImages bulkOk selectedImages
      [Effect.confirmAsk confirmMessage] ++ r.2.map Effect.request ++
        [Effect.alert r.1.message] ++ (if r.1.success then [Effect.reload] else [])

/-- `VerifiedImagesComponent.unverifySelectedImages`, same shape. -/
def unverifyEntryEffects (confirmAnswer bulkOk : Bool) (selectedImages : List Nat) :
    List Effect :=
  if selectedImages.length = 0 then [Effect.alert "Please select images to unverify"]
  else
    let n := selectedImages.length
    let confirmMessage := s!"Are you sure you want to unverify {n} images?"
    if !confirmAnswer then [Effect.confirmAsk confirmMessage]
    else
      let r := unverifySelectedImages bulkOk selectedImages
      [Effect.confirmAsk confirmMessage] ++ r.2.map Effect.request ++
        [Effect.alert r.1.message] ++ (if r.1.success then [Effect.reload] else [])

/-- `VerifiedImagesComponent.deleteSelectedImages`: empty-selection alert,
double confirmation, the per-id service call, the result alert, reload on
success. -/
def deleteEntryEffects (confirmAnswer doubleConfirmAnswer : Bool) (ok : Nat → Bool)
    (selectedImages : List Nat) : List Effect :=
  if selectedImages.length = 0 then [Effect.alert "Please select images to delete"]
  else
    let n := selectedImages.length
    let confirmMessage :=
      s!"⚠️ WARNING: Are you sure you want to DELETE {n} images?\n\nThis action CANNOT be undone!"
    if !confirmAnswer then [Effect.confirmAsk confirmMessage]
    else if !doubleConfirmAnswer then
      [Effect.confirmAsk confirmMessage,
       Effect.confirmAsk "Are you ABSOLUTELY sure? This will permanently delete the images."]
    else
      let r := deleteSelectedImages ok selectedImages
      [Effect.confirmAsk confirmMessage,
       Effect.confirmAsk "Are you ABSOLUTELY sure? This will permanently delete the images."] ++
        r.2.map Effect.request ++
        [Effect.alert r.1.message] ++ (if r.1.success then [Effect.reload] else [])

/-- Every image of the current hierarchy in traversal order. -/
def allHierarchyImages (mainFolders : List MainFolder) : List MangoImage :=
  mainFolders.foldl (fun acc mainFolder =>
    mainFolder.subFolders.foldl (fun acc subFolder => acc ++ subFolder.images) acc) []

/-- `uniqueImagesMap.set(image.id, image)`: a later image with a known id
replaces the stored value but keeps the first insertion position. -/
def upsertById (acc : List MangoImage) (image : MangoImage) : List MangoImage :=
  if acc.any (fun existing => existing.id == image.id) then
    acc.map (fun existing => if existing.id == image.id then image else existing)
  else acc ++ [image]

/-- The selected unique images gathered by `downloadSelectedImages`. -/
def selectedUniqueImages (mainFolders : List MainFolder) (sel : List Nat) : List MangoImage :=
  (allHierarchyImages mainFolders).foldl
    (fun acc image => if image.id ∈ sel then upsertById acc image else acc) []

/-- The per-group download grouping key `` `${disease} (${diseaseType})` `` of the export paths. -/
def exportFolderName (image : MangoImage) : String :=
  let disease := jsOr image.predicted_class "Unknown"
  let dts := diseaseTypeStr (getDiseaseType image)
  s!"{disease} ({dts})"

/-- `VerifiedImagesComponent.downloadSelectedImages`: a bare `return` on an
empty selection (no alert), the unverified-count confirmation when needed,
one fetch per selected image in group order, and the ZIP save. -/
def downloadSelectedEffects (confirmAnswer : Bool) (today : String)
    (mainFolders : List MainFolder) (sel : List Nat) : List Effect :=
  if sel.length = 0 then []
  else
    let selectedImageData := selectedUniqueImages mainFolders sel
    let unverifiedImages := selectedImageData.filter (fun img => !img.is_verified)
    let u := unverifiedImages.length
    let confirmMessage :=
      s!"Your selection includes {u} unverified image(s). These will be downloaded with \"unverified\" appended to their filenames. Do you want to continue?"
    let confirms := if unverifiedImages.length > 0 then [Effect.confirmAsk confirmMessage] else []
    if unverifiedImages.length > 0 ∧ !confirmAnswer then confirms
    else
      let pairs := groupPairs exportFolderName selectedImageData
      let fetches := pairs.flatMap (fun pair => pair.2.map (fun image => Effect.fetchImage image.id))
      confirms ++ fetches ++ [Effect.save s!"selected_images_{today}.zip"]

/-! ## Reentrancy guard (concurrency model)

Modelled from the spec (sections 4.5 and 5): the in-progress booleans
`updatingSelected` and `downloadingAll` are set around each guarded operation
in the component, but the rejection of a second same-kind invocation (the
disabling of the triggering controls bound to these flags) lives in the HTML
templates, which are not part of the provided sources. Per the spec, an
invocation arriving while the flag is set is rejected and nothing is queued;
a finishing body clears the flag. -/

/-- State of one guarded operation kind: its in-progress flag and the number
of bodies currently running. -/
structure GuardState where
  inProgress : Bool
  running : Nat
deriving DecidableEq, Repr

/-- An event of the guarded operation: a user invocation, or the completion
of a running body. -/
inductive GuardEvent where
  | invoke : GuardEvent
  | finish : GuardEvent
deriving DecidableEq, Repr

/-- Modelled from the spec: one step of the guard. An invocation is rejected
outright while the flag is set; otherwise it sets the flag and starts the
body. A completion ends the body and clears the flag. -/
def guardStep (s : GuardState) : GuardEvent → GuardState
  | GuardEvent.invoke =>
    if s.inProgress then s
    else { inProgress := true, running := s.running + 1 }
  | GuardEvent.finish =>
    if s.running > 0 then { inProgress := false, running := s.running - 1 }
    else s

/-- The guard state reached from the idle initial state after a sequence of
events. -/
def guardRun (events : List GuardEvent) : GuardState :=
  events.foldl guardStep { inProgress := false, running := 0 }

/-! ## Shared helper lemmas -/

/-- Total size of a grouping. -/
def sizeSum (gs : List (String × List MangoImage)) : Nat :=
  (gs.map (fun g => g.2.length)).sum

theorem insertGrouped_sizeSum (key : String) (image : MangoImage) :
    ∀ gs : List (String × List MangoImage),
      sizeSum (insertGrouped key image gs) = sizeSum gs + 1 := by
  intro gs
  induction gs with
  | nil => simp [insertGrouped, sizeSum]
  | cons g rest ih =>
    obtain ⟨k, imgs⟩ := g
    by_cases hk : k = key
    · simp [insertGrouped, hk, sizeSum]
      omega
    · simp [insertGrouped, hk, sizeSum] at ih ⊢
      omega

theorem groupPairs_fold_sizeSum (keyOf : MangoImage → String) :
    ∀ (images : List MangoImage) (acc : List (String × List MangoImage)),
      sizeSum (images.foldl (fun acc image => insertGrouped (keyOf image) image acc) acc) =
        sizeSum acc + images.length := by
  intro images
  induction images with
  | nil => simp
  | cons image rest ih =>
    intro acc
    simp only [List.foldl_cons, ih, insertGrouped_sizeSum, List.length_cons]
    omega

theorem groupPairs_sizeSum (keyOf : MangoImage → String) (images : List MangoImage) :
    sizeSum (groupPairs keyOf images) = images.length := by
  simpa [groupPairs, sizeSum] using groupPairs_fold_sizeSum keyOf images []

theorem sumCounts_eq_sum_map :
    ∀ (folders : List VerifiedDiseaseFolder) (n : Nat),
      folders.foldl (fun acc folder => acc + folder.count) n =
        n + (folders.map (fun folder => folder.count)).sum := by
  intro folders
  induction folders with
  | nil => simp
  | cons folder rest ih =>
    intro n
    simp only [List.foldl_cons, List.map_cons, List.sum_cons, ih]
    omega

theorem sumCounts_perm {folders₁ folders₂ : List VerifiedDiseaseFolder}
    (h : folders₁.Perm folders₂) : sumCounts folders₁ = sumCounts folders₂ := by
  simp only [sumCounts, sumCounts_eq_sum_map]
  exact congrArg _ ((h.map _).sum_eq)

theorem groupImagesByDisease_subInv (lc : String → String → Int) (cutoff : Int)
    (dateRange : DateRange) (sortBy : SortBy) (images : List MangoImage)
    (verificationStatus : MainCat) :
    ∀ f ∈ groupImagesByDisease lc cutoff dateRange sortBy images verificationStatus,
      f.count = f.images.length := by
  intro f hf
  unfold groupImagesByDisease at hf
  rw [List.mem_insertionSort] at hf
  simp only [List.mem_map] at hf
  obtain ⟨pair, _, rfl⟩ := hf
  simp [List.length_insertionSort]

theorem groupImagesByDisease_sumCounts_all (lc : String → String → Int) (cutoff : Int)
    (sortBy : SortBy) (images : List MangoImage) (verificationStatus : MainCat) :
    sumCounts (groupImagesByDisease lc cutoff DateRange.all sortBy images verificationStatus) =
      images.length := by
  unfold groupImagesByDisease
  rw [sumCounts_perm (List.perm_insertionSort _ _)]
  simp only [sumCounts, sumCounts_eq_sum_map, Nat.zero_add, List.map_map]
  have : ((groupPairs folderKeyOf images).map
      (fun pair : String × List MangoImage => pair.2.length)).sum = images.length := by
    simpa [sizeSum] using groupPairs_sizeSum folderKeyOf images
  simpa [Function.comp] using this

theorem applyDateFilter_subInv (cutoff : Int) (folders : List VerifiedDiseaseFolder)
    (dateRange : DateRange) (h : ∀ f ∈ folders, f.count = f.images.length) :
    ∀ f ∈ applyDateFilter cutoff folders dateRange, f.count = f.images.length := by
  intro f hf
  unfold applyDateFilter at hf
  split at hf
  · exact h f hf
  · rw [List.mem_filter] at hf
    obtain ⟨hmem, _⟩ := hf
    simp only [List.mem_map] at hmem
    obtain ⟨folder, _, rfl⟩ := hmem
    rfl

theorem filter_preserves_subInv {l : List VerifiedDiseaseFolder}
    (p : VerifiedDiseaseFolder → Bool) (h : ∀ f ∈ l, f.count = f.images.length) :
    ∀ f ∈ l.filter p, f.count = f.images.length :=
  fun f hf => h f (List.mem_of_mem_filter hf)

theorem filterSubFolders_subInv (cutoff : Int) (subFolders : List VerifiedDiseaseFolder)
    (filterType : FilterType) (searchTerm : String) (dateRange : DateRange)
    (h : ∀ f ∈ subFolders, f.count = f.images.length) :
    ∀ f ∈ filterSubFolders cutoff subFolders filterType searchTerm dateRange,
      f.count = f.images.length := by
  intro f hf
  by_cases hft : filterType = FilterType.all <;>
    by_cases hst : searchTerm = "" <;>
      by_cases hdr : dateRange = DateRange.all <;>
        simp only [filterSubFolders, hft, hst, hdr, ne_eq, not_true_eq_false,
          not_false_eq_true, ite_true, ite_false, if_true, if_false] at hf <;>
        first
          | exact h f hf
          | exact filter_preserves_subInv _ h f hf
          | exact filter_preserves_subInv _ (filter_preserves_subInv _ h) f hf
          | exact applyDateFilter_subInv _ _ _ h f hf
          | exact applyDateFilter_subInv _ _ _ (filter_preserves_subInv _ h) f hf
          | exact applyDateFilter_subInv _ _ _
              (filter_preserves_subInv _ (filter_preserves_subInv _ h)) f hf

/-! ## Concrete records used in the settled scenarios -/

/-- An unverified leaf image with confidence 92, uploaded at time 200. -/
def imgInRange : MangoImage :=
  { id := 1, predicted_class := "Anthracnose", disease_classification := "",
    confidence_score := some 92, is_verified := false, uploaded_at := 200,
    disease_type := some DiseaseType.leaf, model_used := none,
    original_filename := "a.jpg" }

/-- A folder holding exactly `imgInRange`. -/
def folderInRange : VerifiedDiseaseFolder :=
  { disease := "Anthracnose (Leaf)", count := 1, images := [imgInRange],
    expanded := false, diseaseType := DiseaseType.leaf, downloading := false,
    verificationStatus := some MainCat.all }

/-! ## Claim C1 -/

/-- C1: the date filter of the filter service is claimed to keep exactly the
images uploaded on or after the cutoff and to retain a folder holding an
in-range image. The image callback of `applyDateFilter` has no return
statement, so for every non-`all` range every image is dropped and every
folder is removed: at cutoff 100 and range `week`, a folder whose only image
was uploaded at time 200 (in range) vanishes from the result. -/
theorem dateFilter_drops_inRange_folder :
    (100 : Int) ≤ imgInRange.uploaded_at ∧
    applyDateFilter 100 [folderInRange] DateRange.week = [] := by
  decide

/-! ## Claim C5 -/

theorem guardStep_inv (s : GuardState) (e : GuardEvent)
    (h : s.running = if s.inProgress then 1 else 0) :
    (guardStep s e).running = if (guardStep s e).inProgress then 1 else 0 := by
  cases e with
  | invoke =>
    by_cases hp : s.inProgress
    · simpa [guardStep, hp] using h
    · simp [guardStep, hp] at h ⊢
      simp [h]
  | finish =>
    by_cases hr : s.running > 0
    · by_cases hp : s.inProgress
      · simp [hp] at h
        simp [guardStep, hr, h]
      · simp [hp] at h
        omega
    · simpa [guardStep, hr] using h

theorem foldl_guard_inv :
    ∀ (events : List GuardEvent) (s : GuardState),
      s.running = (if s.inProgress then 1 else 0) →
      (events.foldl guardStep s).running =
        if (events.foldl guardStep s).inProgress then 1 else 0
  | [], _, h => h
  | e :: rest, s, h => foldl_guard_inv rest (guardStep s e) (guardStep_inv s e h)

/-- C5: under the spec-modelled reentrancy guard, an invocation arriving while
the in-progress flag of the same operation kind is set is rejected, so along
every event sequence at most one body of that kind is ever running: the
guarded operation never runs its body twice concurrently. -/
theorem reentrancy_guard_single_body (events : List GuardEvent) :
    (guardRun events).running ≤ 1 := by
  have h := foldl_guard_inv events { inProgress := false, running := 0 } rfl
  unfold guardRun
  rw [h]
  split <;> simp

/-! ## Claim C7 -/

theorem normalizeScore_le_one {s : ℚ} (h : s ≤ 1) : normalizeScore s = s * 100 := by
  unfold normalizeScore
  by_cases h0 : s = 0
  · simp [h0]
  · simp [h0, h]

theorem normalizeScore_gt_one {s : ℚ} (h : 1 < s) : normalizeScore s = s := by
  unfold normalizeScore
  have h0 : s ≠ 0 := by positivity
  simp [h0, not_le.mpr h]

/-- C7 counterexample: the claim asserts that applying the normalization to an
already-normalized percentage leaves it unchanged, but the normalized form of
the score 1/100 is the percentage 1, and normalizing 1 again yields 100. -/
theorem normalize_not_idempotent :
    ¬ normalizeScore (normalizeScore (1 / 100 : ℚ)) = normalizeScore (1 / 100 : ℚ) := by
  have h1 : normalizeScore (1 / 100 : ℚ) = 1 := by
    rw [normalizeScore_le_one (by norm_num)]
    norm_num
  rw [h1, normalizeScore_le_one (le_refl 1)]
  norm_num

/-- C7 amended: the normalization returns `s * 100` when `s ≤ 1` (including 0,
since `0 * 100 = 0`) and `s` otherwise; `normalize(0.87) = 87` and
`normalize(87) = 87`; and re-applying it leaves the value unchanged exactly
when the normalized value is above 1 or zero — a normalized percentage in
`(0, 1]` (a score of at most 1 percent) is scaled a second time. -/
theorem normalize_amended (s : ℚ) :
    (s ≤ 1 → normalizeScore s = s * 100) ∧
    (1 < s → normalizeScore s = s) ∧
    normalizeScore (87 / 100 : ℚ) = 87 ∧
    normalizeScore (87 : ℚ) = 87 ∧
    ((1 < normalizeScore s ∨ normalizeScore s = 0) →
      normalizeScore (normalizeScore s) = normalizeScore s) := by
  refine ⟨fun h => normalizeScore_le_one h, fun h => normalizeScore_gt_one h, ?_, ?_, ?_⟩
  · rw [normalizeScore_le_one (by norm_num)]
    norm_num
  · rw [normalizeScore_gt_one (by norm_num)]
  · rintro (h | h)
    · rw [normalizeScore_gt_one h]
    · rw [h]
      unfold normalizeScore
      simp

/-- Witness for the amended C7 theorem at the scores 0 and 87. -/
theorem normalize_amended_witness :
    ((0 : ℚ) ≤ 1 ∧ normalizeScore 0 = 0 * 100) ∧
    (1 < (87 : ℚ) ∧ normalizeScore 87 = 87) ∧
    ((1 < normalizeScore 87 ∨ normalizeScore 87 = 0) ∧
      normalizeScore (normalizeScore 87) = normalizeScore 87) :=
  ⟨⟨by decide, (normalize_amended 0).1 (by decide)⟩,
   ⟨by decide, (normalize_amended 87).2.1 (by decide)⟩,
   ⟨by decide, (normalize_amended 87).2.2.2.2 (by decide)⟩⟩

/-! ## Claim C10 -/

/-- C10: a falsy `confidence_score` (absent, null, or exactly 0) normalizes to
0, and the categorisation of `loadAllImages` routes such a record to the
unknown main category regardless of its verified flag: it lands in the
unknown list and in neither the verified nor the unverified list. -/
theorem falsy_confidence_unknown (image : MangoImage) (b : Bool)
    (images : List MangoImage)
    (hfalsy : image.confidence_score = none ∨ image.confidence_score = some 0)
    (hmem : image ∈ images) :
    getConfidenceScore image = 0 ∧
    categorizeImage { image with is_verified := b } = MainCat.unknown ∧
    image ∈ unknownImagesOf images ∧
    image ∉ verifiedImagesOf images ∧
    image ∉ unverifiedImagesOf images := by
  have h0 : getConfidenceScore image = 0 := by
    rcases hfalsy with h | h <;> simp [getConfidenceScore, h]
  have h0' : getConfidenceScore { image with is_verified := b } = 0 := by
    rcases hfalsy with h | h <;> simp [getConfidenceScore, h]
  have hlt : (0 : ℚ) < 50 := by norm_num
  refine ⟨h0, ?_, ?_, ?_, ?_⟩
  · simp [categorizeImage, h0', UNKNOWN_CONFIDENCE_THRESHOLD, hlt]
  · simp [unknownImagesOf, List.mem_filter, hmem, h0, UNKNOWN_CONFIDENCE_THRESHOLD, hlt]
  · simp [verifiedImagesOf, List.mem_filter, h0, UNKNOWN_CONFIDENCE_THRESHOLD, hlt]
  · simp [unverifiedImagesOf, List.mem_filter, h0, UNKNOWN_CONFIDENCE_THRESHOLD, hlt]

/-- A verified record with no confidence score. -/
def noScoreImg : MangoImage :=
  { id := 9, predicted_class := "Anthracnose", disease_classification := "",
    confidence_score := none, is_verified := true, uploaded_at := 300,
    disease_type := some DiseaseType.leaf, model_used := none,
    original_filename := "n.jpg" }

/-- Witness for the C10 theorem at a verified record without a score. -/
theorem falsy_confidence_unknown_witness :
    ((noScoreImg.confidence_score = none ∨ noScoreImg.confidence_score = some 0) ∧
      noScoreImg ∈ [noScoreImg]) ∧
    (getConfidenceScore noScoreImg = 0 ∧
      categorizeImage { noScoreImg with is_verified := true } = MainCat.unknown ∧
      noScoreImg ∈ unknownImagesOf [noScoreImg] ∧
      noScoreImg ∉ verifiedImagesOf [noScoreImg] ∧
      noScoreImg ∉ unverifiedImagesOf [noScoreImg]) :=
  ⟨⟨by decide, by decide⟩,
   falsy_confidence_unknown noScoreImg true [noScoreImg] (by decide) (by decide)⟩

/-! ## Claim C3 -/

theorem deleteLoop_requests (ok : Nat → Bool) :
    ∀ ids : List Nat, (deleteLoop ok ids).2.2 = ids.map Request.deleteImage := by
  intro ids
  induction ids with
  | nil => rfl
  | cons imageId rest ih =>
    by_cases h : ok imageId <;> simp [deleteLoop, h, ih]

theorem deleteLoop_successCount (ok : Nat → Bool) :
    ∀ ids : List Nat, (deleteLoop ok ids).1 = (ids.filter ok).length := by
  intro ids
  induction ids with
  | nil => rfl
  | cons imageId rest ih =>
    by_cases h : ok imageId <;> simp [deleteLoop, h, ih]

theorem deleteLoop_total (ok : Nat → Bool) :
    ∀ ids : List Nat, (deleteLoop ok ids).1 + (deleteLoop ok ids).2.1 = ids.length := by
  intro ids
  induction ids with
  | nil => rfl
  | cons imageId rest ih =>
    by_cases h : ok imageId <;> simp [deleteLoop, h] <;> omega

/-- C3 counterexample: bulk-verify on ids `[1, 2, 3]` does not apply per-item
requests with aggregated counts: the service issues exactly one batched update
request (not three per-id requests), and when the batch fails its result is a
wholesale failure message carrying no success or failure counts, not
`{successCount: 2, failureCount: 1}`. -/
theorem bulkVerify_not_perItem :
    (verifySelectedImages false [1, 2, 3]).2 = [Request.bulkUpdate [1, 2, 3] true] ∧
    (verifySelectedImages false [1, 2, 3]).2.length ≠ 3 ∧
    (verifySelectedImages false [1, 2, 3]).1 =
      { success := false, message := "Failed to verify images. Please try again." } := by
  decide

/-- C3 amended: only delete applies sequential per-id requests — one request
per id in order, each independently succeeding or failing, the loop never
aborted, with successCount the number of succeeding ids, successCount +
failureCount the total, and overall success iff at least one id succeeded.
Verify and unverify instead issue a single batched update request and report
all-or-nothing success with no per-item counts. -/
theorem bulkActions_amended (ok : Nat → Bool) (bulkOk : Bool) (ids : List Nat)
    (hne : ids ≠ []) :
    ((deleteSelectedImages ok ids).2 = ids.map Request.deleteImage ∧
      (deleteLoop ok ids).1 = (ids.filter ok).length ∧
      (deleteLoop ok ids).1 + (deleteLoop ok ids).2.1 = ids.length ∧
      (deleteSelectedImages ok ids).1.success = decide (0 < (deleteLoop ok ids).1)) ∧
    ((verifySelectedImages bulkOk ids).2 = [Request.bulkUpdate ids true] ∧
      (verifySelectedImages bulkOk ids).1.success = bulkOk ∧
      (unverifySelectedImages bulkOk ids).2 = [Request.bulkUpdate ids false] ∧
      (unverifySelectedImages bulkOk ids).1.success = bulkOk) := by
  have hlen : ¬ ids.length = 0 := by
    simpa [List.length_eq_zero] using hne
  constructor
  · have hreq : (deleteSelectedImages ok ids).2 = ids.map Request.deleteImage := by
      simp only [deleteSelectedImages, if_neg hlen]
      split
      · exact deleteLoop_requests ok ids
      · split
        · exact deleteLoop_requests ok ids
        · exact deleteLoop_requests ok ids
    refine ⟨hreq, deleteLoop_successCount ok ids, deleteLoop_total ok ids, ?_⟩
    simp only [deleteSelectedImages, if_neg hlen]
    split
    · next hcond => simp [hcond.1]
    · split
      · next hcond => simp [hcond.1]
      · next h1 h2 =>
        have hzero : ¬ 0 < (deleteLoop ok ids).1 := by
          by_cases hf : (deleteLoop ok ids).2.1 = 0
          · exact fun hpos => h1 ⟨hpos, hf⟩
          · exact fun hpos => h2 ⟨hpos, Nat.pos_of_ne_zero hf⟩
        simp [hzero]
  · cases bulkOk <;> simp [verifySelectedImages, unverifySelectedImages, hlen]

/-- Witness for the amended C3 theorem at the Scenario C input: ids
`[1, 2, 3]` with id 2 failing. -/
theorem bulkActions_amended_witness :
    ([1, 2, 3] : List Nat) ≠ [] ∧
    (((deleteSelectedImages (fun i => i ≠ 2) [1, 2, 3]).2 =
        [1, 2, 3].map Request.deleteImage ∧
      (deleteLoop (fun i => i ≠ 2) [1, 2, 3]).1 =
        ([1, 2, 3].filter (fun i => i ≠ 2)).length ∧
      (deleteLoop (fun i => i ≠ 2) [1, 2, 3]).1 +
        (deleteLoop (fun i => i ≠ 2) [1, 2, 3]).2.1 = [1, 2, 3].length ∧
      (deleteSelectedImages (fun i => i ≠ 2) [1, 2, 3]).1.success =
        decide (0 < (deleteLoop (fun i => i ≠ 2) [1, 2, 3]).1)) ∧
    ((verifySelectedImages false [1, 2, 3]).2 = [Request.bulkUpdate [1, 2, 3] true] ∧
      (verifySelectedImages false [1, 2, 3]).1.success = false ∧
      (unverifySelectedImages false [1, 2, 3]).2 = [Request.bulkUpdate [1, 2, 3] false] ∧
      (unverifySelectedImages false [1, 2, 3]).1.success = false)) :=
  ⟨by decide, bulkActions_amended (fun i => i ≠ 2) false [1, 2, 3] (by decide)⟩

/-! ## Claim C9 -/

/-- Whether an effect trace shows a user-facing message. -/
def hasAlert (effects : List Effect) : Bool :=
  effects.any (fun e => match e with
    | Effect.alert _ => true
    | _ => false)

/-- Whether an effect trace contains any network activity (a mutation request,
an image fetch, or the ingestion reload). -/
def hasNetwork (effects : List Effect) : Bool :=
  effects.any (fun e => match e with
    | Effect.request _ => true
    | Effect.fetchImage _ => true
    | Effect.reload => true
    | _ => false)

/-- C9 counterexample: the selected-images export invoked with zero selected
ids is rejected synchronously, but with a bare `return` — its effect trace is
empty, so no user-facing message is shown, contrary to the claim. -/
theorem downloadSelected_empty_silent :
    downloadSelectedEffects true "2026-01-01" [] [] = [] ∧
    hasAlert (downloadSelectedEffects true "2026-01-01" [] []) = false := by
  decide

/-- C9 amended: every bulk action and the selected-images export invoked with
zero selected ids is rejected synchronously before any network call; the
three bulk actions additionally show an alert, while the selected-images
export returns silently with no message. -/
theorem emptySelection_guards (confirmAnswer doubleConfirmAnswer bulkOk : Bool)
    (ok : Nat → Bool) (today : String) (mainFolders : List MainFolder)
    (sel : List Nat) (hsel : sel = []) :
    verifyEntryEffects confirmAnswer bulkOk sel =
      [Effect.alert "Please select images to verify"] ∧
    unverifyEntryEffects confirmAnswer bulkOk sel =
      [Effect.alert "Please select images to unverify"] ∧
    deleteEntryEffects confirmAnswer doubleConfirmAnswer ok sel =
      [Effect.alert "Please select images to delete"] ∧
    downloadSelectedEffects confirmAnswer today mainFolders sel = [] ∧
    hasNetwork (verifyEntryEffects confirmAnswer bulkOk sel) = false ∧
    hasNetwork (unverifyEntryEffects confirmAnswer bulkOk sel) = false ∧
    hasNetwork (deleteEntryEffects confirmAnswer doubleConfirmAnswer ok sel) = false ∧
    hasNetwork (downloadSelectedEffects confirmAnswer today mainFolders sel) = false := by
  subst hsel
  refine ⟨rfl, rfl, rfl, rfl, rfl, rfl, rfl, rfl⟩

/-- Witness for the amended C9 theorem at the empty selection. -/
theorem emptySelection_guards_witness :
    ([] : List Nat) = [] ∧
    (verifyEntryEffects true true [] = [Effect.alert "Please select images to verify"] ∧
    unverifyEntryEffects true true [] = [Effect.alert "Please select images to unverify"] ∧
    deleteEntryEffects true true (fun _ => true) [] =
      [Effect.alert "Please select images to delete"] ∧
    downloadSelectedEffects true "2026-01-01" [] [] = [] ∧
    hasNetwork (verifyEntryEffects true true []) = false ∧
    hasNetwork (unverifyEntryEffects true true []) = false ∧
    hasNetwork (deleteEntryEffects true true (fun _ => true) []) = false ∧
    hasNetwork (downloadSelectedEffects true "2026-01-01" [] []) = false) :=
  ⟨rfl, emptySelection_guards true true true (fun _ => true) "2026-01-01" [] [] rfl⟩

/-! ## Claim C8 -/

theorem getD_set_ne {α : Type _} :
    ∀ (l : List α) (i j : Nat) (a d : α), j ≠ i → (l.set i a).getD j d = l.getD j d := by
  intro l
  induction l with
  | nil => intro i j a d _; rfl
  | cons x xs ih =>
    intro i j a d h
    cases i with
    | zero =>
      cases j with
      | zero => exact absurd rfl h
      | succ j => simp [List.getD_cons_succ]
    | succ i =>
      cases j with
      | zero => simp [List.getD_cons_zero]
      | succ j =>
        simp only [List.set_cons_succ, List.getD_cons_succ]
        exact ih i j a d (fun hji => h (congrArg Nat.succ hji))

theorem selStore_read_alloc (σ : SelStore) (v : List Nat) (r : Nat) (h : r < σ.length) :
    (σ.alloc v).1.read r = σ.read r := by
  show (σ ++ [v]).getD r [] = σ.getD r []
  exact List.getD_append σ [v] [] r h

theorem deselect_fold_length (rSel : Nat) :
    ∀ (images : List MangoImage) (σ : SelStore),
      (images.foldl (fun σ image => σ.write rSel (setDelete (σ.read rSel) image.id)) σ).length
          = σ.length := by
  intro images
  induction images with
  | nil => intro σ; rfl
  | cons image rest ih =>
    intro σ
    rw [List.foldl_cons, ih (σ.write rSel (setDelete (σ.read rSel) image.id))]
    exact List.length_set σ rSel _ ▸ rfl

theorem deselect_fold_read (rSel r : Nat) (hne : r ≠ rSel) :
    ∀ (images : List MangoImage) (σ : SelStore),
      (images.foldl (fun σ image => σ.write rSel (setDelete (σ.read rSel) image.id)) σ).read r
          = σ.read r := by
  intro images
  induction images with
  | nil => intro σ; rfl
  | cons image rest ih =>
    intro σ
    rw [List.foldl_cons, ih (σ.write rSel (setDelete (σ.read rSel) image.id))]
    exact getD_set_ne σ rSel r _ _ hne

/-- C8 counterexample: `deselectAllInFolder` does not return a new set — it
deletes the folder ids from the existing selection set in place: starting from
a store whose only set object holds `{1}`, deselecting a folder containing
image 1 empties that very set object. -/
theorem deselectAllInFolder_mutates :
    SelStore.read (deselectAllInFolder folderInRange 0 [[1]]) 0 = [] ∧
    SelStore.read [[1]] 0 = [1] ∧
    ([] : List Nat) ≠ [1] := by
  decide

/-- C8 amended: the four ButtonsService selection operations (toggle,
select-all-in-folder, select-all, deselect-all) each allocate and return a
fresh set and leave every existing set object unchanged — in particular the
input selection set at `rSel` itself is unmodified; the component's
`deselectAllInFolder`, however, returns no set and instead mutates the given
selection set in place (the store keeps its size and every cell other than
`rSel` is untouched, while the counterexample shows cell `rSel` changing). -/
theorem selection_ops_amended (σ : SelStore) (imageId rSel r : Nat)
    (folder : VerifiedDiseaseFolder) (mainFolders : List MainFolder)
    (hr : r < σ.length) :
    ((toggleImageSelection imageId rSel σ).1.read r = σ.read r ∧
      (toggleImageSelection imageId rSel σ).2 = σ.length) ∧
    ((selectAllInFolder folder rSel σ).1.read r = σ.read r ∧
      (selectAllInFolder folder rSel σ).2 = σ.length) ∧
    ((selectAllImages mainFolders σ).1.read r = σ.read r ∧
      (selectAllImages mainFolders σ).2 = σ.length) ∧
    ((deselectAllImages σ).1.read r = σ.read r ∧
      (deselectAllImages σ).2 = σ.length) ∧
    ((deselectAllInFolder folder rSel σ).length = σ.length ∧
      (r ≠ rSel → (deselectAllInFolder folder rSel σ).read r = σ.read r)) :=
  ⟨⟨selStore_read_alloc σ _ r hr, rfl⟩,
   ⟨selStore_read_alloc σ _ r hr, rfl⟩,
   ⟨selStore_read_alloc σ _ r hr, rfl⟩,
   ⟨selStore_read_alloc σ _ r hr, rfl⟩,
   ⟨deselect_fold_length rSel folder.images σ,
    fun hne => deselect_fold_read rSel r hne folder.images σ⟩⟩

/-- Witness for the amended C8 theorem on a two-cell store, first at the
input set cell itself (`r = rSel = 1`), then at the other cell (`r = 0`) for
the in-place frame of `deselectAllInFolder`. -/
theorem selection_ops_amended_witness :
    ((1 : Nat) < ([[7], [1]] : SelStore).length ∧
      (0 : Nat) < ([[7], [1]] : SelStore).length ∧ (0 : Nat) ≠ 1) ∧
    (((toggleImageSelection 5 1 [[7], [1]]).1.read 1 = SelStore.read [[7], [1]] 1 ∧
      (toggleImageSelection 5 1 [[7], [1]]).2 = ([[7], [1]] : SelStore).length) ∧
    ((selectAllInFolder folderInRange 1 [[7], [1]]).1.read 1 = SelStore.read [[7], [1]] 1 ∧
      (selectAllInFolder folderInRange 1 [[7], [1]]).2 = ([[7], [1]] : SelStore).length) ∧
    ((selectAllImages [] [[7], [1]]).1.read 1 = SelStore.read [[7], [1]] 1 ∧
      (selectAllImages [] [[7], [1]]).2 = ([[7], [1]] : SelStore).length) ∧
    ((deselectAllImages [[7], [1]]).1.read 1 = SelStore.read [[7], [1]] 1 ∧
      (deselectAllImages [[7], [1]]).2 = ([[7], [1]] : SelStore).length) ∧
    ((deselectAllInFolder folderInRange 1 [[7], [1]]).length = ([[7], [1]] : SelStore).length ∧
      ((1 : Nat) ≠ 1 →
        SelStore.read (deselectAllInFolder folderInRange 1 [[7], [1]]) 1
          = SelStore.read [[7], [1]] 1))) ∧
    SelStore.read (deselectAllInFolder folderInRange 1 [[7], [1]]) 0
      = SelStore.read [[7], [1]] 0 :=
  ⟨⟨by decide, by decide, by decide⟩,
   selection_ops_amended [[7], [1]] 5 1 1 folderInRange [] (by decide),
   (selection_ops_amended [[7], [1]] 5 1 0 folderInRange [] (by decide)).2.2.2.2.2
     (by decide)⟩

/-! ## Claim C4 -/

/-- A record labelled Alternaria with no authoritative type hints. -/
def alternariaImg : MangoImage :=
  { id := 3, predicted_class := "Alternaria", disease_classification := "",
    confidence_score := some 80, is_verified := false, uploaded_at := 100,
    disease_type := none, model_used := none, original_filename := "alt.jpg" }

/-- A record whose model-assigned type and backend disease type disagree. -/
def conflictImg : MangoImage :=
  { id := 4, predicted_class := "Anthracnose", disease_classification := "",
    confidence_score := some 90, is_verified := false, uploaded_at := 110,
    disease_type := some DiseaseType.fruit, model_used := some DiseaseType.leaf,
    original_filename := "c.jpg" }

/-- A record labelled Healthy with no authoritative type hints. -/
def healthyImg : MangoImage :=
  { id := 5, predicted_class := "Healthy", disease_classification := "",
    confidence_score := some 95, is_verified := false, uploaded_at := 120,
    disease_type := none, model_used := none, original_filename := "h.jpg" }

/-- A record with only a backend disease type. -/
def backendTypedImg : MangoImage :=
  { id := 6, predicted_class := "Stem End Rot", disease_classification := "",
    confidence_score := some 70, is_verified := false, uploaded_at := 130,
    disease_type := some DiseaseType.fruit, model_used := none,
    original_filename := "s.jpg" }

/-- A record with no type hints and a label matching no keyword. -/
def unmatchedImg : MangoImage :=
  { id := 7, predicted_class := "Mystery", disease_classification := "",
    confidence_score := some 60, is_verified := false, uploaded_at := 140,
    disease_type := none, model_used := none, original_filename := "m.jpg" }

/-- C4 counterexample: the claim places `alternaria` among the fruit keywords,
but the source keyword classifier lists it among the leaf keywords, so the
label Alternaria is typed `leaf` where the claim predicts `fruit`; moreover
the verified-images component checks the backend `disease_type` before the
model-assigned field, so a record carrying model type `leaf` and backend type
`fruit` is typed `fruit` there, against the claimed priority order (modelled
by `specGetDiseaseType`, which follows the words of the claim). -/
theorem diseaseType_claim_ctrex :
    unverifiedGetDiseaseType alternariaImg = DiseaseType.leaf ∧
    specGetDiseaseType alternariaImg = DiseaseType.fruit ∧
    DiseaseType.leaf ≠ DiseaseType.fruit ∧
    getDiseaseType conflictImg = DiseaseType.fruit ∧
    specGetDiseaseType conflictImg = DiseaseType.leaf := by
  decide

/-- C4 amended: in the keyword classifier of the unverified-images component,
the model-assigned type is trusted verbatim first, then a backend disease
type other than `unknown`, then the keyword fallback on the lower-cased label
with the leaf list checked before the fruit list and first substring hit
winning — but `alternaria` belongs to the leaf list, not the fruit list; a
label containing `healthy` with no other hit yields `leaf`, anything else
`unknown`. The verified-images component instead consults the backend
disease type first and has no keyword fallback. -/
theorem diseaseType_amended (image : MangoImage) (m dt : DiseaseType) :
    (image.model_used = some m → unverifiedGetDiseaseType image = m) ∧
    (image.model_used = none → image.disease_type = some dt →
      dt ≠ DiseaseType.unknown → unverifiedGetDiseaseType image = dt) ∧
    (image.model_used = none →
      (image.disease_type = none ∨ image.disease_type = some DiseaseType.unknown) →
      unverifiedGetDiseaseType image = keywordFallback image) ∧
    ((image.disease_classification ≠ "" ∨ image.predicted_class ≠ "") →
      leafDiseases.any (fun pat =>
        strIncludes (strLower (jsOr image.disease_classification image.predicted_class)) pat)
        = true →
      keywordFallback image = DiseaseType.leaf) ∧
    ((image.disease_classification ≠ "" ∨ image.predicted_class ≠ "") →
      leafDiseases.any (fun pat =>
        strIncludes (strLower (jsOr image.disease_classification image.predicted_class)) pat)
        = false →
      fruitDiseases.any (fun pat =>
        strIncludes (strLower (jsOr image.disease_classification image.predicted_class)) pat)
        = true →
      keywordFallback image = DiseaseType.fruit) ∧
    ((image.disease_classification ≠ "" ∨ image.predicted_class ≠ "") →
      leafDiseases.any (fun pat =>
        strIncludes (strLower (jsOr image.disease_classification image.predicted_class)) pat)
        = false →
      fruitDiseases.any (fun pat =>
        strIncludes (strLower (jsOr image.disease_classification image.predicted_class)) pat)
        = false →
      strIncludes (strLower (jsOr image.disease_classification image.predicted_class)) "healthy"
        = true →
      keywordFallback image = DiseaseType.leaf) ∧
    (leafDiseases.any (fun pat =>
        strIncludes (strLower (jsOr image.disease_classification image.predicted_class)) pat)
        = false →
      fruitDiseases.any (fun pat =>
        strIncludes (strLower (jsOr image.disease_classification image.predicted_class)) pat)
        = false →
      strIncludes (strLower (jsOr image.disease_classification image.predicted_class)) "healthy"
        = false →
      keywordFallback image = DiseaseType.unknown) ∧
    ("alternaria" ∈ leafDiseases ∧ "alternaria" ∉ fruitDiseases) ∧
    (image.disease_type = some dt → dt ≠ DiseaseType.unknown →
      getDiseaseType image = dt) := by
  refine ⟨?_, ?_, ?_, ?_, ?_, ?_, ?_, ⟨by decide, by decide⟩, ?_⟩
  · intro hm
    simp [unverifiedGetDiseaseType, hm]
  · intro hm hdt hne
    simp [unverifiedGetDiseaseType, hm, hdt, hne]
  · intro hm hdt
    rcases hdt with h | h <;> simp [unverifiedGetDiseaseType, hm, h]
  · intro hguard hleaf
    simp [keywordFallback, hguard, hleaf]
  · intro hguard hleaf hfruit
    simp [keywordFallback, hguard, hleaf, hfruit]
  · intro hguard hleaf hfruit hhealthy
    simp [keywordFallback, hguard, hleaf, hfruit, hhealthy]
  · intro hleaf hfruit hhealthy
    by_cases hguard : image.disease_classification ≠ "" ∨ image.predicted_class ≠ ""
    · simp [keywordFallback, hguard, hleaf, hfruit, hhealthy]
    · simp [keywordFallback, hguard]
  · intro hdt hne
    simp [getDiseaseType, hdt, hne]

/-- Witness for the amended C4 theorem, exercising each branch: the model
field on `conflictImg`, the backend field on `backendTypedImg`, the keyword
fallback on `alternariaImg`, the healthy default on `healthyImg`, the unknown
default on `unmatchedImg`, and the backend-first order of the component. -/
theorem diseaseType_amended_witness :
    (conflictImg.model_used = some DiseaseType.leaf ∧
      unverifiedGetDiseaseType conflictImg = DiseaseType.leaf) ∧
    (backendTypedImg.model_used = none ∧
      backendTypedImg.disease_type = some DiseaseType.fruit ∧
      DiseaseType.fruit ≠ DiseaseType.unknown ∧
      unverifiedGetDiseaseType backendTypedImg = DiseaseType.fruit) ∧
    (alternariaImg.model_used = none ∧
      (alternariaImg.disease_type = none ∨
        alternariaImg.disease_type = some DiseaseType.unknown) ∧
      unverifiedGetDiseaseType alternariaImg = keywordFallback alternariaImg) ∧
    ((alternariaImg.disease_classification ≠ "" ∨ alternariaImg.predicted_class ≠ "") ∧
      leafDiseases.any (fun pat =>
        strIncludes (strLower (jsOr alternariaImg.disease_classification
          alternariaImg.predicted_class)) pat) = true ∧
      keywordFallback alternariaImg = DiseaseType.leaf) ∧
    ((backendTypedImg.disease_classification ≠ "" ∨ backendTypedImg.predicted_class ≠ "") ∧
      leafDiseases.any (fun pat =>
        strIncludes (strLower (jsOr backendTypedImg.disease_classification
          backendTypedImg.predicted_class)) pat) = false ∧
      fruitDiseases.any (fun pat =>
        strIncludes (strLower (jsOr backendTypedImg.disease_classification
          backendTypedImg.predicted_class)) pat) = true ∧
      keywordFallback backendTypedImg = DiseaseType.fruit) ∧
    ((healthyImg.disease_classification ≠ "" ∨ healthyImg.predicted_class ≠ "") ∧
      leafDiseases.any (fun pat =>
        strIncludes (strLower (jsOr healthyImg.disease_classification
          healthyImg.predicted_class)) pat) = false ∧
      fruitDiseases.any (fun pat =>
        strIncludes (strLower (jsOr healthyImg.disease_classification
          healthyImg.predicted_class)) pat) = false ∧
      strIncludes (strLower (jsOr healthyImg.disease_classification
        healthyImg.predicted_class)) "healthy" = true ∧
      keywordFallback healthyImg = DiseaseType.leaf) ∧
    (leafDiseases.any (fun pat =>
        strIncludes (strLower (jsOr unmatchedImg.disease_classification
          unmatchedImg.predicted_class)) pat) = false ∧
      fruitDiseases.any (fun pat =>
        strIncludes (strLower (jsOr unmatchedImg.disease_classification
          unmatchedImg.predicted_class)) pat) = false ∧
      strIncludes (strLower (jsOr unmatchedImg.disease_classification
        unmatchedImg.predicted_class)) "healthy" = false ∧
      keywordFallback unmatchedImg = DiseaseType.unknown) ∧
    (conflictImg.disease_type = some DiseaseType.fruit ∧
      DiseaseType.fruit ≠ DiseaseType.unknown ∧
      getDiseaseType conflictImg = DiseaseType.fruit) :=
  ⟨⟨by decide, (diseaseType_amended conflictImg DiseaseType.leaf DiseaseType.leaf).1 (by decide)⟩,
   ⟨by decide, by decide, by decide,
    (diseaseType_amended backendTypedImg DiseaseType.leaf DiseaseType.fruit).2.1
      (by decide) (by decide) (by decide)⟩,
   ⟨by decide, Or.inl (by decide),
    (diseaseType_amended alternariaImg DiseaseType.leaf DiseaseType.leaf).2.2.1
      (by decide) (Or.inl (by decide))⟩,
   ⟨Or.inr (by decide), by decide,
    (diseaseType_amended alternariaImg DiseaseType.leaf DiseaseType.leaf).2.2.2.1
      (Or.inr (by decide)) (by decide)⟩,
   ⟨Or.inr (by decide), by decide, by decide,
    (diseaseType_amended backendTypedImg DiseaseType.leaf DiseaseType.leaf).2.2.2.2.1
      (Or.inr (by decide)) (by decide) (by decide)⟩,
   ⟨Or.inr (by decide), by decide, by decide, by decide,
    (diseaseType_amended healthyImg DiseaseType.leaf DiseaseType.leaf).2.2.2.2.2.1
      (Or.inr (by decide)) (by decide) (by decide) (by decide)⟩,
   ⟨by decide, by decide, by decide,
    (diseaseType_amended unmatchedImg DiseaseType.leaf DiseaseType.leaf).2.2.2.2.2.2.1
      (by decide) (by decide) (by decide)⟩,
   ⟨by decide, by decide,
    (diseaseType_amended conflictImg DiseaseType.leaf DiseaseType.fruit).2.2.2.2.2.2.2.2
      (by decide) (by decide)⟩⟩

/-! ## Claim C6 -/

/-- A minimal folder named A. -/
def folderA : VerifiedDiseaseFolder :=
  { disease := "A", count := 0, images := [], expanded := false,
    diseaseType := DiseaseType.leaf, downloading := false, verificationStatus := none }

/-- A minimal folder named B. -/
def folderB : VerifiedDiseaseFolder :=
  { disease := "B", count := 0, images := [], expanded := false,
    diseaseType := DiseaseType.leaf, downloading := false, verificationStatus := none }

/-- C6 counterexample: the pipeline never mutates its input, but applying it
with cleared criteria does not reproduce the original grouping exactly as
claimed: clearing also resets the sort key to `disease`, so an original list
that is not disease-sorted (here `[B, A]`, as a count-sorted build can leave
it) comes back re-ordered to `[A, B]`. -/
theorem clearFilters_roundtrip_ctrex :
    filterSubFolders 0 [folderB, folderA] FilterType.all "" DateRange.all
      = [folderB, folderA] ∧
    applySorting stdLC [folderB, folderA] SortBy.disease = [folderA, folderB] ∧
    ([folderA, folderB] : List VerifiedDiseaseFolder) ≠ [folderB, folderA] := by
  decide

/-- C6 amended: the pipeline is pure — cleared filter criteria return the
input list itself, the filter pass rewrites only the derived `count` and
`subFolders` fields and leaves every `originalSubFolders` list untouched, and
the cleared pipeline output is a permutation of the original holding exactly
the original folders; it equals the original list itself whenever the
original is already sorted by disease name (as a build under the default sort
key leaves it). -/
theorem clearFilters_roundtrip_amended (lc : String → String → Int) (cutoff : Int)
    (subFolders : List VerifiedDiseaseFolder) (mainFolders : List MainFolder)
    (filterType : FilterType) (searchTerm : String) (sortBy : SortBy)
    (dateRange : DateRange)
    (hsorted : List.Pairwise (folderRel lc SortBy.disease) subFolders) :
    filterSubFolders cutoff subFolders FilterType.all "" DateRange.all = subFolders ∧
    (applySorting lc subFolders SortBy.disease).Perm subFolders ∧
    (filterMainFolders lc cutoff mainFolders filterType searchTerm sortBy dateRange).map
        (fun mf => mf.originalSubFolders)
      = mainFolders.map (fun mf => mf.originalSubFolders) ∧
    applySorting lc subFolders SortBy.disease = subFolders := by
  refine ⟨rfl, List.perm_insertionSort _ _, ?_, ?_⟩
  · unfold filterMainFolders
    split
    · next h => rw [List.length_eq_zero.mp h]
    · rw [List.map_map]; rfl
  · exact List.Sorted.insertionSort_eq hsorted

/-- Witness for the amended C6 theorem at a disease-sorted two-folder list. -/
theorem clearFilters_roundtrip_amended_witness :
    List.Pairwise (folderRel stdLC SortBy.disease) [folderA, folderB] ∧
    (filterSubFolders 0 [folderA, folderB] FilterType.all "" DateRange.all
        = [folderA, folderB] ∧
      (applySorting stdLC [folderA, folderB] SortBy.disease).Perm [folderA, folderB] ∧
      (filterMainFolders stdLC 0 [] FilterType.leaf "x" SortBy.count DateRange.week).map
          (fun mf => mf.originalSubFolders)
        = ([] : List MainFolder).map (fun mf => mf.originalSubFolders) ∧
      applySorting stdLC [folderA, folderB] SortBy.disease = [folderA, folderB]) :=
  ⟨by decide,
   clearFilters_roundtrip_amended stdLC 0 [folderA, folderB] [] FilterType.leaf "x"
     SortBy.count DateRange.week (by decide)⟩

/-! ## Claim C2 -/

/-- An unverified high-confidence image uploaded at time 50 (outside a cutoff
of 100). -/
def oldImg : MangoImage :=
  { id := 2, predicted_class := "Anthracnose", disease_classification := "",
    confidence_score := some 92, is_verified := false, uploaded_at := 50,
    disease_type := some DiseaseType.leaf, model_used := none,
    original_filename := "old.jpg" }

/-- C2 counterexample: rebuilding with date range `week` (cutoff 100) over a
single image uploaded at time 50 sets the All and Unverified main folder
counts to the full category sizes (1) while their date-filtered subfolder
lists are empty (subfolder count sum 0), so `count = Σ subFolders[*].count`
fails after a rebuild with a non-all date range in effect. -/
theorem rebuild_count_invariant_ctrex :
    (loadAllImagesBuild stdLC 100 DateRange.week SortBy.disease [oldImg]).map
        (fun mf => (mf.count, sumCounts mf.subFolders))
      = [(1, 0), (0, 0), (1, 0), (0, 0)] ∧
    (1 : Nat) ≠ 0 := by
  decide

/-- C2 amended: after every filter pass, each main folder's count equals the
sum of its current subfolder counts, and each subfolder's count equals its
image-list length (given the built originals satisfy it, as they do); after a
rebuild the same holds when the date range is `all`. With a non-`all` date
range at rebuild time the main folder counts are the full category sizes
while the subfolders hold only in-range images, so the sum can fall short of
`count` (see the counterexample). -/
theorem count_invariants_amended (lc : String → String → Int) (cutoff : Int)
    (mainFolders : List MainFolder) (filterType : FilterType) (searchTerm : String)
    (sortBy : SortBy) (dateRange : DateRange) (images : List MangoImage)
    (hinv : ∀ mf ∈ mainFolders, ∀ f ∈ mf.originalSubFolders, f.count = f.images.length) :
    (∀ mf ∈ filterMainFolders lc cutoff mainFolders filterType searchTerm sortBy dateRange,
        mf.count = sumCounts mf.subFolders ∧
        ∀ f ∈ mf.subFolders, f.count = f.images.length) ∧
    (∀ mf ∈ loadAllImagesBuild lc cutoff DateRange.all sortBy images,
        mf.count = sumCounts mf.subFolders ∧
        (∀ f ∈ mf.subFolders, f.count = f.images.length) ∧
        (∀ f ∈ mf.originalSubFolders, f.count = f.images.length)) := by
  constructor
  · intro mf hmf
    unfold filterMainFolders at hmf
    split at hmf
    · exact absurd hmf (List.not_mem_nil mf)
    · rw [List.mem_map] at hmf
      obtain ⟨mf₀, hmf₀, rfl⟩ := hmf
      refine ⟨rfl, ?_⟩
      intro f hf
      have hf' : f ∈ filterSubFolders cutoff mf₀.originalSubFolders
          filterType searchTerm dateRange := by
        simpa [applySorting, List.mem_insertionSort] using hf
      exact filterSubFolders_subInv _ _ _ _ _ (hinv mf₀ hmf₀) f hf'
  · intro mf hmf
    simp only [loadAllImagesBuild, createMainFolders, List.mem_cons,
      List.not_mem_nil, or_false] at hmf
    rcases hmf with rfl | rfl | rfl | rfl
    · exact ⟨(groupImagesByDisease_sumCounts_all lc cutoff sortBy images MainCat.all).symm,
        groupImagesByDisease_subInv lc cutoff DateRange.all sortBy images MainCat.all,
        groupImagesByDisease_subInv lc cutoff DateRange.all sortBy images MainCat.all⟩
    · exact ⟨(groupImagesByDisease_sumCounts_all lc cutoff sortBy
          (verifiedImagesOf images) MainCat.verified).symm,
        groupImagesByDisease_subInv lc cutoff DateRange.all sortBy
          (verifiedImagesOf images) MainCat.verified,
        groupImagesByDisease_subInv lc cutoff DateRange.all sortBy
          (verifiedImagesOf images) MainCat.verified⟩
    · exact ⟨(groupImagesByDisease_sumCounts_all lc cutoff sortBy
          (unverifiedImagesOf images) MainCat.unverified).symm,
        groupImagesByDisease_subInv lc cutoff DateRange.all sortBy
          (unverifiedImagesOf images) MainCat.unverified,
        groupImagesByDisease_subInv lc cutoff DateRange.all sortBy
          (unverifiedImagesOf images) MainCat.unverified⟩
    · exact ⟨(groupImagesByDisease_sumCounts_all lc cutoff sortBy
          (unknownImagesOf images) MainCat.unknown).symm,
        groupImagesByDisease_subInv lc cutoff DateRange.all sortBy
          (unknownImagesOf images) MainCat.unknown,
        groupImagesByDisease_subInv lc cutoff DateRange.all sortBy
          (unknownImagesOf images) MainCat.unknown⟩

/-- A main folder whose originals satisfy the subfolder invariant. -/
def cMainFolder : MainFolder :=
  { name := "All Images", count := 1, expanded := false,
    subFolders := [folderInRange], originalSubFolders := [folderInRange],
    type := MainCat.all }

/-- Witness for the amended C2 theorem at a one-folder hierarchy and a
one-image rebuild. -/
theorem count_invariants_amended_witness :
    (∀ mf ∈ [cMainFolder], ∀ f ∈ mf.originalSubFolders, f.count = f.images.length) ∧
    ((∀ mf ∈ filterMainFolders stdLC 100 [cMainFolder] FilterType.all ""
          SortBy.disease DateRange.all,
        mf.count = sumCounts mf.subFolders ∧
        ∀ f ∈ mf.subFolders, f.count = f.images.length) ∧
      (∀ mf ∈ loadAllImagesBuild stdLC 100 DateRange.all SortBy.disease [imgInRange],
        mf.count = sumCounts mf.subFolders ∧
        (∀ f ∈ mf.subFolders, f.count = f.images.length) ∧
        (∀ f ∈ mf.originalSubFolders, f.count = f.images.length))) :=
  ⟨by decide,
   count_invariants_amended stdLC 100 [cMainFolder] FilterType.all "" SortBy.disease
     DateRange.all [imgInRange] (by decide)⟩
